import Mathlib

/-
  Shallow embedding of the OTP / subscription-billing gateway
  (src/otp_service/main.py and src/otp_service/payment_service.py).

  Modelling conventions:
  * datetimes are Nat seconds; timedelta(minutes=5) = 300, timedelta(days=30) = 2592000;
    each request evaluates datetime.utcnow() at a single instant `now`.
  * SQLAlchemy tables are Lean lists of row structures inside a `DB` record;
    query(...).filter_by(...).first() is List.find?; inserts append; in-place ORM
    mutation of a row obtained via .first() is `updateFirst`; autoincrement ids
    come from `DB.next_id`.
  * floats (price_usd, max_budget) are Rat; nullable columns are Option.
  * outbound HTTP bodies are structures; a JSON field that a handler may omit is
    Option-of-Option valued: `none` = field absent from the dict, `some none` =
    field present with value null, `some (some x)` = field present with value x.
  * upstream responses (LiteLLM, Stripe) are inputs: either a status-code
    parameter or a function from the request payload to (status, body).
  * Python try/except is the `PyResult` sum: a `raise HTTPException(s, d)` is
    `.exc s d`; a catch-all `except Exception` matches on `.exc`.  Exception
    detail strings follow the f-string in the source; where Python formats an
    exception object the rendering "status: detail" is used.
-/

/-- Result of a Python block that may raise HTTPException. -/
inductive PyResult (α : Type) where
  | ok (a : α)
  | exc (status : Nat) (detail : String)
deriving DecidableEq

/-- class PlanType(str, Enum) in main.py. -/
inductive PlanType where
  | free
  | basic
  | pro
  | premium
deriving DecidableEq

/-- The .value of the str-enum. -/
def PlanType.value : PlanType → String
  | .free => "free"
  | .basic => "basic"
  | .pro => "pro"
  | .premium => "premium"

/-- PlanType(s) constructor: some on the four member values, none = ValueError. -/
def PlanType.ofString (s : String) : Option PlanType :=
  if s == "free" then some .free
  else if s == "basic" then some .basic
  else if s == "pro" then some .pro
  else if s == "premium" then some .premium
  else none

/-- One entry of the PLAN_CONFIGS dict (name, price_usd, max_budget, rpm_limit,
tpm_limit, max_parallel_requests). -/
structure PlanConfig where
  name : String
  price_usd : Rat
  max_budget : Option Rat
  rpm_limit : Nat
  tpm_limit : Nat
  max_parallel_requests : Nat
deriving DecidableEq

/-- PLAN_CONFIGS in main.py: the free plan has max_budget None. -/
def PLAN_CONFIGS : PlanType → PlanConfig
  | .free => { name := "Free", price_usd := 0, max_budget := none,
               rpm_limit := 2, tpm_limit := 1000, max_parallel_requests := 1 }
  | .basic => { name := "Basic", price_usd := 2, max_budget := some 2,
                rpm_limit := 10, tpm_limit := 10000, max_parallel_requests := 3 }
  | .pro => { name := "Pro", price_usd := 5, max_budget := some 5,
              rpm_limit := 50, tpm_limit := 50000, max_parallel_requests := 5 }
  | .premium => { name := "Premium", price_usd := 10, max_budget := some 10,
                  rpm_limit := 100, tpm_limit := 100000, max_parallel_requests := 10 }

/-- Row of login.phone_otp. -/
structure PhoneOTPRow where
  phone_number : String
  otp_code : String
  created_at : Nat
  expires_at : Nat
deriving DecidableEq

/-- Row of login.phone_api_keys (phone_number unique). -/
structure PhoneAPIKeyRow where
  phone_number : String
  api_key : String
  created_at : Nat
deriving DecidableEq

/-- Row of login.subscription_plans. -/
structure SubscriptionPlanRow where
  id : Nat
  name : String
  price_usd : Rat
  max_budget : Option Rat
  rpm_limit : Nat
  tpm_limit : Nat
  max_parallel_requests : Nat
deriving DecidableEq

/-- Row of login.user_subscriptions (phone_number unique). -/
structure UserSubscriptionRow where
  id : Nat
  phone_number : String
  plan_id : Nat
  stripe_customer_id : Option String
  stripe_subscription_id : Option String
  is_active : Bool
  expires_at : Option Nat
  created_at : Nat
  updated_at : Nat
deriving DecidableEq

/-- Row of login.payment_transactions. -/
structure PaymentTransactionRow where
  phone_number : String
  stripe_payment_intent_id : String
  stripe_session_id : Option String
  amount_usd : Rat
  plan_name : String
  status : String
  created_at : Nat
  updated_at : Nat
deriving DecidableEq

/-- The relational store shared by both service modules. -/
structure DB where
  otps : List PhoneOTPRow
  api_keys : List PhoneAPIKeyRow
  plans : List SubscriptionPlanRow
  subscriptions : List UserSubscriptionRow
  transactions : List PaymentTransactionRow
  next_id : Nat
deriving DecidableEq

/-- In-place ORM mutation of the row returned by .filter_by(...).first():
rewrite the first element satisfying p, leave the rest alone. -/
def updateFirst (p : α → Bool) (f : α → α) : List α → List α
  | [] => []
  | x :: xs => if p x then f x :: xs else x :: updateFirst p f xs

/-- Body of POST {litellm}/key/update.  max_budget is Option-of-Option valued:
none = key absent from the payload dict, some none = present as JSON null,
some (some x) = present with value x. -/
structure KeyUpdatePayload where
  key : String
  budget_duration : String
  max_parallel_requests : Nat
  tpm_limit : Nat
  rpm_limit : Nat
  max_budget : Option (Option Rat)
deriving DecidableEq

/-- Body of POST {litellm}/key/generate, same conventions. -/
structure KeyGenPayload where
  key_alias : String
  budget_duration : String
  max_parallel_requests : Nat
  tpm_limit : Nat
  rpm_limit : Nat
  max_budget : Option (Option Rat)
deriving DecidableEq

/-- update_litellm_api_key in main.py.  Looks up the PhoneAPIKey row of the phone;
returns (false, none) with no outbound call when absent.  Otherwise posts a
payload whose max_budget key is added only when max_budget of the plan config
is not None.  `upstreamStatus` is the HTTP status of the /key/update response;
the second component records the payload of the call that was made. -/
def update_litellm_api_key (db : DB) (phone_number : String) (plan_config : PlanConfig)
    (upstreamStatus : Nat) : Bool × Option KeyUpdatePayload :=
  match db.api_keys.find? (fun e => e.phone_number == phone_number) with
  | none => (false, none)
  | some api_key_entry =>
    let payload : KeyUpdatePayload :=
      { key := api_key_entry.api_key
        budget_duration := "30d"
        max_parallel_requests := plan_config.max_parallel_requests
        tpm_limit := plan_config.tpm_limit
        rpm_limit := plan_config.rpm_limit
        max_budget := plan_config.max_budget.map some }
    (upstreamStatus == 200, some payload)

namespace PaymentService

/-- PLAN_CONFIGS in payment_service.py: note the free plan has max_budget 0.0
here, not None. -/
def PLAN_CONFIGS : PlanType → PlanConfig
  | .free => { name := "Free", price_usd := 0, max_budget := some 0,
               rpm_limit := 2, tpm_limit := 1000, max_parallel_requests := 1 }
  | .basic => { name := "Basic", price_usd := 2, max_budget := some 2,
                rpm_limit := 10, tpm_limit := 10000, max_parallel_requests := 3 }
  | .pro => { name := "Pro", price_usd := 5, max_budget := some 5,
              rpm_limit := 50, tpm_limit := 50000, max_parallel_requests := 5 }
  | .premium => { name := "Premium", price_usd := 10, max_budget := some 10,
                  rpm_limit := 100, tpm_limit := 100000, max_parallel_requests := 10 }

/-- update_litellm_api_key in payment_service.py.  Unlike the main.py variant,
the payload dict always contains the max_budget key, with the value from the plan config (JSON null when that value is None). -/
def update_litellm_api_key (db : DB) (phone_number : String) (plan_config : PlanConfig)
    (upstreamStatus : Nat) : Bool × Option KeyUpdatePayload :=
  match db.api_keys.find? (fun e => e.phone_number == phone_number) with
  | none => (false, none)
  | some api_key_entry =>
    let payload : KeyUpdatePayload :=
      { key := api_key_entry.api_key
        budget_duration := "30d"
        max_parallel_requests := plan_config.max_parallel_requests
        tpm_limit := plan_config.tpm_limit
        rpm_limit := plan_config.rpm_limit
        max_budget := some plan_config.max_budget }
    (upstreamStatus == 200, some payload)

end PaymentService

/-- POST /send-otp (main.py): persist a challenge whose expiry is issuance time
plus 5 minutes (timedelta(minutes=5) = 300 seconds).  The random 6-digit code
is the `otp` parameter. -/
def send_otp (db : DB) (now : Nat) (phone_number otp : String) : DB :=
  let entry : PhoneOTPRow :=
    { phone_number := phone_number, otp_code := otp, created_at := now,
      expires_at := now + 300 }
  { db with otps := db.otps ++ [entry] }

/-- The challenge lookup of verify_otp: phone and code match and
expires_at > utcnow (strict). -/
def otpMatch (now : Nat) (phone_number otp_code : String) (o : PhoneOTPRow) : Bool :=
  o.phone_number == phone_number && o.otp_code == otp_code && decide (now < o.expires_at)

/-- The 4-field plan_config dict built locally inside verify_otp. -/
structure LimitConfig where
  max_budget : Option Rat
  max_parallel_requests : Nat
  tpm_limit : Nat
  rpm_limit : Nat
deriving DecidableEq

/-- The plan_config used by the first verify_otp attempt: the free catalog row
when present, else the PLAN_CONFIGS[PlanType.FREE] fallback. -/
def verifyLimitConfig (db : DB) : LimitConfig :=
  match db.plans.find? (fun p => p.name == "free") with
  | none =>
    let c := PLAN_CONFIGS .free
    { max_budget := c.max_budget, max_parallel_requests := c.max_parallel_requests,
      tpm_limit := c.tpm_limit, rpm_limit := c.rpm_limit }
  | some free_plan =>
    { max_budget := free_plan.max_budget,
      max_parallel_requests := free_plan.max_parallel_requests,
      tpm_limit := free_plan.tpm_limit, rpm_limit := free_plan.rpm_limit }

/-- The /key/generate body posted by the first verify_otp attempt; max_budget
is added to the dict only when the plan config value is not None. -/
def first_verify_payload (db : DB) (phone_number : String) : KeyGenPayload :=
  let cfg := verifyLimitConfig db
  { key_alias := phone_number
    budget_duration := "30d"
    max_parallel_requests := cfg.max_parallel_requests
    tpm_limit := cfg.tpm_limit
    rpm_limit := cfg.rpm_limit
    max_budget := cfg.max_budget.map some }

/-- The hardcoded /key/generate body posted by the retry path of verify_otp;
here the max_budget key is present with value None (JSON null). -/
def retry_verify_payload (phone_number : String) : KeyGenPayload :=
  { key_alias := phone_number
    budget_duration := "30d"
    max_parallel_requests := 3
    tpm_limit := 30000
    rpm_limit := 2
    max_budget := some none }

/-- The free UserSubscription row created for a new user (by the first
verification and by the lazy path of GET /subscription): plan set to the free
catalog row, active, no expiry, fresh autoincrement id. -/
def freshFreeSub (db : DB) (phone_number : String) (free_plan : SubscriptionPlanRow)
    (now : Nat) : UserSubscriptionRow :=
  { id := db.next_id, phone_number := phone_number, plan_id := free_plan.id,
    stripe_customer_id := none, stripe_subscription_id := none,
    is_active := true, expires_at := none, created_at := now, updated_at := now }

/-- The store after committing such a fresh free subscription row. -/
def withFreshFreeSub (db : DB) (phone_number : String) (free_plan : SubscriptionPlanRow)
    (now : Nat) : DB :=
  { db with subscriptions := db.subscriptions ++ [freshFreeSub db phone_number free_plan now],
            next_id := db.next_id + 1 }

/-- First try-block of POST /verify-otp (main.py lines 393-460).  `upstream`
maps a /key/generate request body to the (status, key) of the response. -/
def verify_otp_attempt (db : DB) (now : Nat) (phone_number otp_code : String)
    (upstream : KeyGenPayload → Nat × String) : PyResult (DB × String) :=
  match db.otps.find? (otpMatch now phone_number otp_code) with
  | none => .exc 400 "Invalid or expired OTP"
  | some _ =>
    match db.api_keys.find? (fun e => e.phone_number == phone_number) with
    | some api_key_entry => .ok (db, api_key_entry.api_key)
    | none =>
      let free_plan := db.plans.find? (fun p => p.name == "free")
      let payload := first_verify_payload db phone_number
      let r := upstream payload
      if r.1 != 200 then .exc 500 "Failed to create LiteLLM key"
      else
        let api_key_value := r.2
        let keyRow : PhoneAPIKeyRow :=
          { phone_number := phone_number, api_key := api_key_value, created_at := now }
        match free_plan with
        | some free_plan =>
          let subscription := freshFreeSub db phone_number free_plan now
          .ok ({ db with api_keys := db.api_keys ++ [keyRow],
                         subscriptions := db.subscriptions ++ [subscription],
                         next_id := db.next_id + 1 }, api_key_value)
        | none =>
          .ok ({ db with api_keys := db.api_keys ++ [keyRow] }, api_key_value)

/-- Retry block of POST /verify-otp (main.py lines 461-505), entered when the
first attempt raised: re-runs the lookup and, when provisioning, posts the
hardcoded fallback payload; no subscription row is created on this path. -/
def verify_otp_retry (db : DB) (now : Nat) (phone_number otp_code : String)
    (upstream : KeyGenPayload → Nat × String) : PyResult (DB × String) :=
  match db.otps.find? (otpMatch now phone_number otp_code) with
  | none => .exc 400 "Invalid or expired OTP"
  | some _ =>
    match db.api_keys.find? (fun e => e.phone_number == phone_number) with
    | some api_key_entry => .ok (db, api_key_entry.api_key)
    | none =>
      let payload := retry_verify_payload phone_number
      let r := upstream payload
      if r.1 != 200 then .exc 500 "Failed to create LiteLLM key"
      else
        let keyRow : PhoneAPIKeyRow :=
          { phone_number := phone_number, api_key := r.2, created_at := now }
        .ok ({ db with api_keys := db.api_keys ++ [keyRow] }, r.2)

/-- HTTP outcome of POST /verify-otp. -/
inductive VerifyResult where
  | ok (api_key : String)
  | httpError (status : Nat) (detail : String)
deriving DecidableEq

/-- POST /verify-otp (main.py).  The whole handler body is wrapped in
`except Exception`, which also catches the HTTPExceptions the body itself
raises (FastAPI HTTPException derives from Exception); the retry block then
runs, and any exception it raises is re-raised as a 500 Database error. -/
def verify_otp (db : DB) (now : Nat) (phone_number otp_code : String)
    (upstream : KeyGenPayload → Nat × String) : DB × VerifyResult :=
  match verify_otp_attempt db now phone_number otp_code upstream with
  | .ok (db1, k) => (db1, .ok k)
  | .exc _ _ =>
    match verify_otp_retry db now phone_number otp_code upstream with
    | .ok (db1, k) => (db1, .ok k)
    | .exc st d =>
      (db, .httpError 500 ("Database error: " ++ toString st ++ ": " ++ d))

/-- GET /subscription/{phone_number} (identical in main.py and
payment_service.py): return the existing subscription row, or lazily create a
free one.  `none` models the unhandled AttributeError (HTTP 500) when the free
plan row is missing from the catalog on the create path. -/
def get_user_subscription (db : DB) (now : Nat) (phone_number : String) :
    Option (DB × UserSubscriptionRow) :=
  match db.subscriptions.find? (fun s => s.phone_number == phone_number) with
  | some subscription => some (db, subscription)
  | none =>
    match db.plans.find? (fun p => p.name == "free") with
    | none => none
    | some free_plan =>
      some (withFreshFreeSub db phone_number free_plan now,
            freshFreeSub db phone_number free_plan now)

/-- HTTP outcome of POST /create-checkout-session. -/
inductive CheckoutResult where
  | mock (checkout_url session_id : String)
  | ok (checkout_url session_id : String)
  | err (status : Nat) (detail : String)
deriving DecidableEq

/-- Try-block of POST /create-checkout-session in main.py (lines 605-664).
`stripeSecretKey` is the STRIPE_SECRET_KEY configuration (none when unset or
empty, both falsy in Python); when it is absent the handler returns the mock
development response BEFORE the free-plan check runs.  `stripeSession` is the
(id, url) of the checkout session that stripe.checkout.Session.create
returns.  The free-plan and plan-not-found HTTPExceptions the body raises are
`.exc` values; nothing is committed on those paths. -/
def create_checkout_session_body (stripeSecretKey : Option String) (backendOrigins : String)
    (db : DB) (now : Nat) (phone_number : String) (plan_type : PlanType)
    (stripeSession : String × String) : PyResult (DB × CheckoutResult) :=
  match stripeSecretKey with
  | none =>
    .ok (db, .mock (backendOrigins ++ "/otp/mock-payment?session_id=cs_mock_123&phone="
          ++ phone_number ++ "&plan=" ++ plan_type.value) "cs_mock_123")
  | some _ =>
    if plan_type == .free then
      .exc 400 "Cannot create checkout for free plan"
    else
      match db.plans.find? (fun p => p.name == plan_type.value) with
      | none => .exc 404 "Plan not found"
      | some plan =>
        let transaction : PaymentTransactionRow :=
          { phone_number := phone_number, stripe_session_id := some stripeSession.1,
            stripe_payment_intent_id := "", amount_usd := plan.price_usd,
            plan_name := plan.name, status := "pending",
            created_at := now, updated_at := now }
        .ok ({ db with transactions := db.transactions ++ [transaction] },
             .ok stripeSession.2 stripeSession.1)

/-- POST /create-checkout-session in main.py.  The try-block sits above
`except stripe.error.StripeError` and a trailing `except Exception` (lines
666-669); an HTTPException the body itself raised is not a StripeError, so
the catch-all wraps it as HTTP 500 "Error creating checkout: ...". -/
def create_checkout_session (stripeSecretKey : Option String) (backendOrigins : String)
    (db : DB) (now : Nat) (phone_number : String) (plan_type : PlanType)
    (stripeSession : String × String) : DB × CheckoutResult :=
  match create_checkout_session_body stripeSecretKey backendOrigins db now
      phone_number plan_type stripeSession with
  | .ok r => r
  | .exc st d =>
    (db, .err 500 ("Error creating checkout: " ++ toString st ++ ": " ++ d))

namespace PaymentService

/-- Try-block of POST /create-checkout-session in payment_service.py (lines
198-249): no mock branch, the free-plan rejection is the first check. -/
def create_checkout_session_body (db : DB) (now : Nat) (phone_number : String)
    (plan_type : PlanType) (stripeSession : String × String) :
    PyResult (DB × CheckoutResult) :=
  if plan_type == .free then
    .exc 400 "Cannot create checkout for free plan"
  else
    match db.plans.find? (fun p => p.name == plan_type.value) with
    | none => .exc 404 "Plan not found"
    | some plan =>
      let transaction : PaymentTransactionRow :=
        { phone_number := phone_number, stripe_session_id := some stripeSession.1,
          stripe_payment_intent_id := "", amount_usd := plan.price_usd,
          plan_name := plan.name, status := "pending",
          created_at := now, updated_at := now }
      .ok ({ db with transactions := db.transactions ++ [transaction] },
           .ok stripeSession.2 stripeSession.1)

/-- POST /create-checkout-session in payment_service.py: the same trailing
`except Exception` (lines 251-254) wraps the HTTPExceptions the body raised
into HTTP 500 "Error creating checkout: ...". -/
def create_checkout_session (db : DB) (now : Nat) (phone_number : String)
    (plan_type : PlanType) (stripeSession : String × String) : DB × CheckoutResult :=
  match create_checkout_session_body db now phone_number plan_type stripeSession with
  | .ok r => r
  | .exc st d =>
    (db, .err 500 ("Error creating checkout: " ++ toString st ++ ": " ++ d))

end PaymentService

/-- A checkout.session.completed event object, with its metadata. -/
structure StripeSession where
  id : String
  metadata_phone_number : String
  metadata_plan_type : String
  payment_intent : Option String
  subscription : Option String
deriving DecidableEq

/-- The mutation handle_successful_payment applies to the matched transaction. -/
def succeedTxn (session : StripeSession) (now : Nat) (t : PaymentTransactionRow) :
    PaymentTransactionRow :=
  { t with status := "succeeded",
           stripe_payment_intent_id := session.payment_intent.getD "",
           updated_at := now }

/-- The mutation handle_successful_payment applies to the subscription row. -/
def upgradeSub (plan : SubscriptionPlanRow) (session : StripeSession) (now : Nat)
    (r : UserSubscriptionRow) : UserSubscriptionRow :=
  { r with plan_id := plan.id,
           stripe_subscription_id := session.subscription,
           is_active := true,
           expires_at := some (now + 2592000),
           updated_at := now }

/-- handle_successful_payment (main.py lines 708-758).  Marks the matching
transaction succeeded, upserts the subscription to the purchased plan with a
30-day expiry (2592000 seconds from now), invokes update_litellm_api_key with
the PLAN_CONFIGS entry of the plan, and commits regardless of the result
(the synchronizer returns a bool and never raises).  When the metadata plan
type is not a PlanType member, PLAN_CONFIGS[PlanType(plan_type)] raises and
the except block rolls the session back, so the store is unchanged.
`customerId` is the id get_or_create_stripe_customer would return; the last
component records the /key/update call the synchronizer made, if any. -/
def handle_successful_payment (db : DB) (now : Nat) (session : StripeSession)
    (customerId : String) (updStatus : Nat) : DB × Bool × Option KeyUpdatePayload :=
  match db.plans.find? (fun p => p.name == session.metadata_plan_type) with
  | none => (db, false, none)
  | some plan =>
    match PlanType.ofString session.metadata_plan_type with
    | none => (db, false, none)
    | some pt =>
      let transactions :=
        updateFirst (fun t => t.stripe_session_id == some session.id)
          (succeedTxn session now) db.transactions
      let db1 : DB :=
        match db.subscriptions.find?
            (fun s => s.phone_number == session.metadata_phone_number) with
        | some _ =>
          let subs :=
            updateFirst (fun s => s.phone_number == session.metadata_phone_number)
              (upgradeSub plan session now) db.subscriptions
          { db with transactions := transactions, subscriptions := subs }
        | none =>
          let created : UserSubscriptionRow :=
            upgradeSub plan session now
              { id := db.next_id,
                phone_number := session.metadata_phone_number,
                plan_id := 0, stripe_customer_id := some customerId,
                stripe_subscription_id := none, is_active := true,
                expires_at := none, created_at := now, updated_at := now }
          { db with transactions := transactions,
                    subscriptions := db.subscriptions ++ [created],
                    next_id := db.next_id + 1 }
      let upd := update_litellm_api_key db1 session.metadata_phone_number
        (PLAN_CONFIGS pt) updStatus
      (db1, upd.1, upd.2)

/-- handle_subscription_renewal (main.py lines 761-781): extend the expiry of
the subscription matching the customer id of the invoice by 30 days from now. -/
def handle_subscription_renewal (db : DB) (now : Nat) (customerId : String) : DB :=
  match db.subscriptions.find? (fun s => s.stripe_customer_id == some customerId) with
  | none => db
  | some _ =>
    let subs :=
      updateFirst (fun s => s.stripe_customer_id == some customerId)
        (fun s => { s with expires_at := some (now + 2592000),
                           updated_at := now, is_active := true })
        db.subscriptions
    { db with subscriptions := subs }

/-- The field update applied to the matched row by handle_subscription_canceled. -/
def cancelUpdate (freePlanId : Nat) (now : Nat) (s : UserSubscriptionRow) :
    UserSubscriptionRow :=
  { s with plan_id := freePlanId, is_active := true, expires_at := none,
           stripe_subscription_id := none, updated_at := now }

/-- handle_subscription_canceled (main.py lines 784-811): downgrade the
subscription matching the Stripe subscription id to the free plan, clear its
expiry and Stripe subscription id, mark it active, and invoke
update_litellm_api_key with the main PLAN_CONFIGS free entry, then commit.
When the free plan row is missing, free_plan.id raises, the except block logs,
and the uncommitted session is discarded. -/
def handle_subscription_canceled (db : DB) (now : Nat) (subscriptionId : String)
    (updStatus : Nat) : DB × Bool × Option KeyUpdatePayload :=
  match db.subscriptions.find? (fun s => s.stripe_subscription_id == some subscriptionId) with
  | none => (db, false, none)
  | some subscription =>
    match db.plans.find? (fun p => p.name == "free") with
    | none => (db, false, none)
    | some free_plan =>
      let subs :=
        updateFirst (fun s => s.stripe_subscription_id == some subscriptionId)
          (cancelUpdate free_plan.id now) db.subscriptions
      let db1 : DB := { db with subscriptions := subs }
      let upd := update_litellm_api_key db1 subscription.phone_number
        (PLAN_CONFIGS .free) updStatus
      (db1, upd.1, upd.2)

namespace PaymentService

/-- handle_subscription_canceled in payment_service.py: identical flow, but it
invokes the update_litellm_api_key of this module with its own PLAN_CONFIGS
free entry (max_budget 0.0, always included in the payload). -/
def handle_subscription_canceled (db : DB) (now : Nat) (subscriptionId : String)
    (updStatus : Nat) : DB × Bool × Option KeyUpdatePayload :=
  match db.subscriptions.find? (fun s => s.stripe_subscription_id == some subscriptionId) with
  | none => (db, false, none)
  | some subscription =>
    match db.plans.find? (fun p => p.name == "free") with
    | none => (db, false, none)
    | some free_plan =>
      let subs :=
        updateFirst (fun s => s.stripe_subscription_id == some subscriptionId)
          (cancelUpdate free_plan.id now) db.subscriptions
      let db1 : DB := { db with subscriptions := subs }
      let upd := PaymentService.update_litellm_api_key db1 subscription.phone_number
        (PaymentService.PLAN_CONFIGS .free) updStatus
      (db1, upd.1, upd.2)

end PaymentService

/-- A parsed, signature-verified Stripe event, by type. -/
inductive WebhookEvent where
  | checkoutCompleted (session : StripeSession)
  | invoicePaymentSucceeded (customerId : String)
  | subscriptionDeleted (subscriptionId : String)
  | other (eventType : String)
deriving DecidableEq

/-- Outcome of stripe.Webhook.construct_event: a parsed event, or the
ValueError / SignatureVerificationError failure modes. -/
inductive ConstructEventResult where
  | ok (event : WebhookEvent)
  | invalidPayload
  | invalidSignature
deriving DecidableEq

/-- HTTP outcome of POST /webhook. -/
inductive WebhookResponse where
  | success
  | err (status : Nat) (detail : String)
deriving DecidableEq

/-- The outer try-block of POST /webhook (identical in main.py and
payment_service.py): raise 400 on construct_event failure, else dispatch on
the event type (the individual handlers catch their own exceptions and never
raise). -/
def stripe_webhook_body (db : DB) (now : Nat) (cer : ConstructEventResult)
    (customerId : String) (updStatus : Nat) : PyResult (DB × WebhookResponse) :=
  match cer with
  | .invalidPayload => .exc 400 "Invalid payload"
  | .invalidSignature => .exc 400 "Invalid signature"
  | .ok event =>
    match event with
    | .checkoutCompleted session =>
      .ok ((handle_successful_payment db now session customerId updStatus).1, .success)
    | .invoicePaymentSucceeded cid =>
      .ok (handle_subscription_renewal db now cid, .success)
    | .subscriptionDeleted sid =>
      .ok ((handle_subscription_canceled db now sid updStatus).1, .success)
    | .other _ => .ok (db, .success)

/-- POST /webhook: the whole body sits inside `except Exception`, which also
catches the HTTPException(400) raised for a bad payload or signature (FastAPI
HTTPException derives from Exception) and re-raises it as a 500. -/
def stripe_webhook (db : DB) (now : Nat) (cer : ConstructEventResult)
    (customerId : String) (updStatus : Nat) : DB × WebhookResponse :=
  match stripe_webhook_body db now cer customerId updStatus with
  | .ok r => r
  | .exc _ _ => (db, .err 500 "Webhook processing failed")

/-
  Concrete example data used to evaluate the definitions.
-/

/-- The free catalog row as seeded by init_subscription_plans in main.py. -/
def freePlanRow : SubscriptionPlanRow :=
  { id := 1, name := "free", price_usd := 0, max_budget := none,
    rpm_limit := 2, tpm_limit := 1000, max_parallel_requests := 1 }

/-- The basic catalog row as seeded by init_subscription_plans in main.py. -/
def basicPlanRow : SubscriptionPlanRow :=
  { id := 2, name := "basic", price_usd := 2, max_budget := some 2,
    rpm_limit := 10, tpm_limit := 10000, max_parallel_requests := 3 }

/-- A store holding only the seeded plan catalog. -/
def dbPlansOnly : DB :=
  { otps := [], api_keys := [], plans := [freePlanRow, basicPlanRow],
    subscriptions := [], transactions := [], next_id := 1 }

/-- A provisioned key row for phone "p". -/
def keyRowP : PhoneAPIKeyRow :=
  { phone_number := "p", api_key := "sk-abc", created_at := 0 }

/-- Catalog plus one provisioned key. -/
def dbOneKey : DB := { dbPlansOnly with api_keys := [keyRowP] }

/-- An upstream that answers every key-generate request with 200 and a key. -/
def upsOk : KeyGenPayload → Nat × String := fun _ => (200, "sk-new")

/-- An upstream that answers every key-generate request with 500. -/
def upsFail : KeyGenPayload → Nat × String := fun _ => (500, "")

/-- A challenge issued at time 0 for phone "p". -/
def otpRowP : PhoneOTPRow :=
  { phone_number := "p", otp_code := "123456", created_at := 0, expires_at := 300 }

/-- Catalog plus one pending challenge, no key yet. -/
def dbOtp : DB := { dbPlansOnly with otps := [otpRowP] }

/-- An existing basic subscription row for phone "p". -/
def subRowP : UserSubscriptionRow :=
  { id := 5, phone_number := "p", plan_id := 2, stripe_customer_id := some "cus_1",
    stripe_subscription_id := some "sub_1", is_active := true, expires_at := some 100,
    created_at := 0, updated_at := 0 }

/-- A pending transaction for checkout session cs_1. -/
def txRowP : PaymentTransactionRow :=
  { phone_number := "p", stripe_payment_intent_id := "", stripe_session_id := some "cs_1",
    amount_usd := 2, plan_name := "basic", status := "pending",
    created_at := 0, updated_at := 0 }

/-- Catalog, key, subscription and pending transaction for phone "p". -/
def dbFull : DB :=
  { dbPlansOnly with api_keys := [keyRowP], subscriptions := [subRowP],
                     transactions := [txRowP] }

/-- A completed checkout session for phone "p" buying the basic plan. -/
def sessC2 : StripeSession :=
  { id := "cs_1", metadata_phone_number := "p", metadata_plan_type := "basic",
    payment_intent := some "pi_1", subscription := some "sub_1" }

/-- The key row the first verification at time 10 persists for phone "p". -/
def keyRowC7 : PhoneAPIKeyRow :=
  { phone_number := "p", api_key := "sk-new", created_at := 10 }

/-- The free subscription row created alongside that key. -/
def subRowC7 : UserSubscriptionRow :=
  { id := 1, phone_number := "p", plan_id := 1, stripe_customer_id := none,
    stripe_subscription_id := none, is_active := true, expires_at := none,
    created_at := 10, updated_at := 10 }

/-- The store after that first successful verification. -/
def dbC7ok : DB :=
  { dbOtp with api_keys := [keyRowC7], subscriptions := [subRowC7], next_id := 2 }

/-
  Helper lemmas about the list operations that model the queries.
-/

theorem find?_append_of_none {α} (p : α → Bool) (l₁ l₂ : List α)
    (h : l₁.find? p = none) : (l₁ ++ l₂).find? p = l₂.find? p := by
  induction l₁ with
  | nil => simp
  | cons x xs ih =>
    cases hx : p x with
    | true => simp [List.find?_cons, hx] at h
    | false =>
      simp only [List.find?_cons, hx] at h
      simpa [List.find?_cons, hx] using ih h

theorem find?_append_singleton {α} (p : α → Bool) (l : List α) (a : α)
    (h : l.find? p = none) (ha : p a = true) : (l ++ [a]).find? p = some a := by
  rw [find?_append_of_none p l [a] h]
  simp [List.find?_cons, ha]

theorem countP_eq_zero_of_find?_none {α} (p : α → Bool) (l : List α)
    (h : l.find? p = none) : l.countP p = 0 := by
  induction l with
  | nil => simp
  | cons x xs ih =>
    cases hx : p x with
    | true => simp [List.find?_cons, hx] at h
    | false =>
      simp only [List.find?_cons, hx] at h
      simp [List.countP_cons, hx, ih h]

theorem updateFirst_getElem? {α} (p : α → Bool) (f : α → α) (l : List α) (a : α)
    (h : l.find? p = some a) :
    ∃ i : Nat, l[i]? = some a ∧ (updateFirst p f l)[i]? = some (f a) := by
  induction l with
  | nil => simp [List.find?] at h
  | cons x xs ih =>
    cases hx : p x with
    | true =>
      have hxa : x = a := by simpa [List.find?_cons, hx] using h
      subst hxa
      exact ⟨0, by simp, by simp [updateFirst, hx]⟩
    | false =>
      have h2 : xs.find? p = some a := by simpa [List.find?_cons, hx] using h
      obtain ⟨i, h3, h4⟩ := ih h2
      refine ⟨i + 1, ?_, ?_⟩
      · simpa using h3
      · simpa [updateFirst, hx] using h4

theorem getElem?_append_length {α} (l : List α) (a : α) :
    (l ++ [a])[l.length]? = some a := by
  induction l with
  | nil => rfl
  | cons x xs ih => simp

/-- C1 counterexample: the claim requires the push operation to omit the
max_budget field entirely whenever the budget ceiling of the plan is None, but the
payment_service.py variant of update_litellm_api_key, run on a store where a
key exists for phone "p" with the main free plan config (whose max_budget is
None), sends a payload whose max_budget field is present (with value null,
i.e. some none), not absent (none). -/
theorem C1_counterexample :
    (PLAN_CONFIGS .free).max_budget = none ∧
    (PaymentService.update_litellm_api_key dbOneKey "p" (PLAN_CONFIGS .free) 200).2 =
      some { key := "sk-abc", budget_duration := "30d", max_parallel_requests := 1,
             tpm_limit := 1000, rpm_limit := 2, max_budget := some none } ∧
    (some (none : Option Rat) : Option (Option Rat)) ≠ none := by
  exact ⟨rfl, rfl, by decide⟩

/-- C1 (amended): for every store, phone number, plan configuration and
upstream status, both variants of the push operation return false without an
outbound call when no PhoneAPIKey row exists for the phone; when a key exists,
both post a payload carrying the rpm_limit, tpm_limit,
max_parallel_requests and a 30-day budget duration, and the main.py variant
omits the max_budget field exactly when the budget ceiling is None,
while the payment_service.py variant always includes the field (null-valued
when the ceiling is None). -/
theorem C1_push_amended (db : DB) (phone : String) (cfg : PlanConfig) (st : Nat) :
    (db.api_keys.find? (fun e => e.phone_number == phone) = none →
      update_litellm_api_key db phone cfg st = (false, none) ∧
      PaymentService.update_litellm_api_key db phone cfg st = (false, none)) ∧
    (∀ e, db.api_keys.find? (fun e => e.phone_number == phone) = some e →
      update_litellm_api_key db phone cfg st = ((st == 200 : Bool),
        some { key := e.api_key, budget_duration := "30d",
               max_parallel_requests := cfg.max_parallel_requests,
               tpm_limit := cfg.tpm_limit, rpm_limit := cfg.rpm_limit,
               max_budget := cfg.max_budget.map some }) ∧
      PaymentService.update_litellm_api_key db phone cfg st = ((st == 200 : Bool),
        some { key := e.api_key, budget_duration := "30d",
               max_parallel_requests := cfg.max_parallel_requests,
               tpm_limit := cfg.tpm_limit, rpm_limit := cfg.rpm_limit,
               max_budget := some cfg.max_budget }) ∧
      (cfg.max_budget.map some = (none : Option (Option Rat)) ↔ cfg.max_budget = none)) := by
  constructor
  · intro h
    constructor
    · simp [update_litellm_api_key, h]
    · simp [PaymentService.update_litellm_api_key, h]
  · intro e he
    refine ⟨?_, ?_, ?_⟩
    · simp [update_litellm_api_key, he]
    · simp [PaymentService.update_litellm_api_key, he]
    · cases cfg.max_budget <;> simp

/-- C1 witness: the amended statement evaluated on a store holding one key for
phone "p" and the basic plan config. -/
theorem C1_witness :
    dbOneKey.api_keys.find? (fun e => e.phone_number == "p") = some keyRowP ∧
    update_litellm_api_key dbOneKey "p" (PLAN_CONFIGS .basic) 200 = (true,
      some { key := "sk-abc", budget_duration := "30d", max_parallel_requests := 3,
             tpm_limit := 10000, rpm_limit := 10, max_budget := some (some 2) }) := by
  exact ⟨rfl, ((C1_push_amended dbOneKey "p" (PLAN_CONFIGS .basic) 200).2 keyRowP rfl).1⟩

/-- C2: for every checkout.session.completed event whose session id matches an
existing PaymentTransaction, handle_successful_payment commits the transaction
as succeeded, commits the subscription of the phone number in the event metadata to the
purchased plan with an expiry 30 days (2592000 s) after the processing time,
and invokes the proxy limit synchronizer (the /key/update call carrying the
limits of the purchased plan is recorded whenever a key row exists).  The upstream
status st is arbitrary, so a failing synchronizer call (st not 200) still
leaves the subscription and transaction updates committed. -/
theorem C2_checkout_completed (db : DB) (now : Nat) (s : StripeSession)
    (cid : String) (st : Nat) (plan : SubscriptionPlanRow) (pt : PlanType)
    (t : PaymentTransactionRow)
    (hplan : db.plans.find? (fun p => p.name == s.metadata_plan_type) = some plan)
    (hpt : PlanType.ofString s.metadata_plan_type = some pt)
    (ht : db.transactions.find? (fun t => t.stripe_session_id == some s.id) = some t) :
    (∃ j : Nat, db.transactions[j]? = some t ∧
      (handle_successful_payment db now s cid st).1.transactions[j]? =
        some (succeedTxn s now t)) ∧
    (∃ (i : Nat) (r : UserSubscriptionRow),
      (handle_successful_payment db now s cid st).1.subscriptions[i]? = some r ∧
      r.phone_number = s.metadata_phone_number ∧ r.plan_id = plan.id ∧
      r.is_active = true ∧ r.expires_at = some (now + 2592000)) ∧
    (∀ e, db.api_keys.find? (fun e => e.phone_number == s.metadata_phone_number) = some e →
      (handle_successful_payment db now s cid st).2.2 =
        some { key := e.api_key, budget_duration := "30d",
               max_parallel_requests := (PLAN_CONFIGS pt).max_parallel_requests,
               tpm_limit := (PLAN_CONFIGS pt).tpm_limit,
               rpm_limit := (PLAN_CONFIGS pt).rpm_limit,
               max_budget := (PLAN_CONFIGS pt).max_budget.map some }) := by
  cases hsub : db.subscriptions.find? (fun r => r.phone_number == s.metadata_phone_number) with
  | some s0 =>
    refine ⟨?_, ?_, ?_⟩
    · obtain ⟨j, hj1, hj2⟩ := updateFirst_getElem?
        (fun t => t.stripe_session_id == some s.id)
        (succeedTxn s now) db.transactions t ht
      exact ⟨j, hj1, by simp [handle_successful_payment, hplan, hpt, hsub, hj2]⟩
    · obtain ⟨i, _, hi⟩ := updateFirst_getElem?
        (fun r => r.phone_number == s.metadata_phone_number)
        (upgradeSub plan s now) db.subscriptions s0 hsub
      have hs0 := List.find?_some hsub
      refine ⟨i, upgradeSub plan s now s0,
        by simp [handle_successful_payment, hplan, hpt, hsub, hi], ?_, rfl, rfl, rfl⟩
      simpa [upgradeSub] using hs0
    · intro e he
      simp [handle_successful_payment, hplan, hpt, hsub, update_litellm_api_key, he]
  | none =>
    refine ⟨?_, ?_, ?_⟩
    · obtain ⟨j, hj1, hj2⟩ := updateFirst_getElem?
        (fun t => t.stripe_session_id == some s.id)
        (succeedTxn s now) db.transactions t ht
      exact ⟨j, hj1, by simp [handle_successful_payment, hplan, hpt, hsub, hj2]⟩
    · refine ⟨db.subscriptions.length,
        upgradeSub plan s now
          { id := db.next_id, phone_number := s.metadata_phone_number, plan_id := 0,
            stripe_customer_id := some cid, stripe_subscription_id := none,
            is_active := true, expires_at := none, created_at := now, updated_at := now },
        by simp [handle_successful_payment, hplan, hpt, hsub, getElem?_append_length],
        rfl, rfl, rfl, rfl⟩
    · intro e he
      simp [handle_successful_payment, hplan, hpt, hsub, update_litellm_api_key, he]

/-- C2 witness: the theorem evaluated on a store with the seeded catalog, one
provisioned key, an existing subscription and a pending transaction for
session cs_1, for a completed basic-plan checkout processed at time 50 with a
failing (status 503) synchronizer call. -/
theorem C2_witness :
    dbFull.plans.find? (fun p => p.name == sessC2.metadata_plan_type) = some basicPlanRow ∧
    PlanType.ofString sessC2.metadata_plan_type = some .basic ∧
    dbFull.transactions.find? (fun t => t.stripe_session_id == some sessC2.id) = some txRowP ∧
    ((∃ j : Nat, dbFull.transactions[j]? = some txRowP ∧
      (handle_successful_payment dbFull 50 sessC2 "cus_1" 503).1.transactions[j]? =
        some (succeedTxn sessC2 50 txRowP)) ∧
    (∃ (i : Nat) (r : UserSubscriptionRow),
      (handle_successful_payment dbFull 50 sessC2 "cus_1" 503).1.subscriptions[i]? = some r ∧
      r.phone_number = sessC2.metadata_phone_number ∧ r.plan_id = basicPlanRow.id ∧
      r.is_active = true ∧ r.expires_at = some (50 + 2592000)) ∧
    (∀ e, dbFull.api_keys.find?
        (fun e => e.phone_number == sessC2.metadata_phone_number) = some e →
      (handle_successful_payment dbFull 50 sessC2 "cus_1" 503).2.2 =
        some { key := e.api_key, budget_duration := "30d",
               max_parallel_requests := (PLAN_CONFIGS .basic).max_parallel_requests,
               tpm_limit := (PLAN_CONFIGS .basic).tpm_limit,
               rpm_limit := (PLAN_CONFIGS .basic).rpm_limit,
               max_budget := (PLAN_CONFIGS .basic).max_budget.map some })) := by
  exact ⟨rfl, rfl, rfl, C2_checkout_completed dbFull 50 sessC2 "cus_1" 503
    basicPlanRow .basic txRowP rfl rfl rfl⟩

/-- C3: the first successful OTP verification for a phone with no key appends
exactly one PhoneAPIKey row and leaves the challenge table untouched, and
every later successful verification for the same phone (in particular a
resubmission of the same still-unexpired code, which is accepted because
verification does not invalidate the challenge) returns the same api_key and
leaves the store unchanged, for any later upstream behaviour. -/
theorem C3_verify_reuses_key (db : DB) (now : Nat) (phone code k : String)
    (upstream : KeyGenPayload → Nat × String) (o : PhoneOTPRow)
    (hotp : db.otps.find? (otpMatch now phone code) = some o)
    (hkey : db.api_keys.find? (fun e => e.phone_number == phone) = none)
    (hup : upstream (first_verify_payload db phone) = (200, k)) :
    (verify_otp db now phone code upstream).2 = .ok k ∧
    (verify_otp db now phone code upstream).1.api_keys =
      db.api_keys ++ [{ phone_number := phone, api_key := k, created_at := now }] ∧
    (verify_otp db now phone code upstream).1.otps = db.otps ∧
    (∀ (now₂ : Nat) (code₂ : String) (upstream₂ : KeyGenPayload → Nat × String)
        (o₂ : PhoneOTPRow),
      db.otps.find? (otpMatch now₂ phone code₂) = some o₂ →
      verify_otp (verify_otp db now phone code upstream).1 now₂ phone code₂ upstream₂ =
        ((verify_otp db now phone code upstream).1, .ok k)) := by
  have hbase : (verify_otp db now phone code upstream).2 = .ok k ∧
      (verify_otp db now phone code upstream).1.api_keys =
        db.api_keys ++ [{ phone_number := phone, api_key := k, created_at := now }] ∧
      (verify_otp db now phone code upstream).1.otps = db.otps := by
    cases hfp : db.plans.find? (fun p => p.name == "free") with
    | some fp =>
      refine ⟨?_, ?_, ?_⟩ <;>
        simp [verify_otp, verify_otp_attempt, hotp, hkey, hfp, hup]
    | none =>
      refine ⟨?_, ?_, ?_⟩ <;>
        simp [verify_otp, verify_otp_attempt, hotp, hkey, hfp, hup]
  obtain ⟨hres, hkeys, hotps⟩ := hbase
  refine ⟨hres, hkeys, hotps, ?_⟩
  intro now₂ code₂ upstream₂ o₂ h₂
  set X := (verify_otp db now phone code upstream).1 with hX
  have hfind : X.api_keys.find? (fun e => e.phone_number == phone) =
      some { phone_number := phone, api_key := k, created_at := now } := by
    rw [hkeys]
    exact find?_append_singleton _ _ _ hkey (by simp)
  have hfind2 : X.otps.find? (otpMatch now₂ phone code₂) = some o₂ := by
    rw [hotps]; exact h₂
  simp [verify_otp, verify_otp_attempt, hfind, hfind2]

/-- C3 witness: a challenge for phone "p" issued at 0, verified first at time
10 (provisioning key sk-new), then re-verified with the same code at time 20,
returning the same key without touching the store, even though the later
upstream would fail. -/
theorem C3_witness :
    dbOtp.otps.find? (otpMatch 10 "p" "123456") = some otpRowP ∧
    dbOtp.api_keys.find? (fun e => e.phone_number == "p") = none ∧
    upsOk (first_verify_payload dbOtp "p") = (200, "sk-new") ∧
    (verify_otp dbOtp 10 "p" "123456" upsOk).2 = .ok "sk-new" ∧
    (verify_otp dbOtp 10 "p" "123456" upsOk).1.api_keys =
      dbOtp.api_keys ++ [{ phone_number := "p", api_key := "sk-new", created_at := 10 }] ∧
    verify_otp (verify_otp dbOtp 10 "p" "123456" upsOk).1 20 "p" "123456" upsFail =
      ((verify_otp dbOtp 10 "p" "123456" upsOk).1, .ok "sk-new") := by
  have h := C3_verify_reuses_key dbOtp 10 "p" "123456" "sk-new" upsOk otpRowP rfl rfl rfl
  exact ⟨rfl, rfl, rfl, h.1, h.2.1, h.2.2.2 20 "123456" upsFail otpRowP rfl⟩

/-- C4: an OTP issued at time 0 is persisted with expiry exactly 300 s (5 min)
later, and verifying the correct code at 301 s (and at exactly 300 s) fails —
but the failure surfaces as HTTP 500 "Database error: 400: Invalid or expired
OTP", not as the HTTP 400 the claim states: the catch-all except block of
verify_otp also catches the HTTPException(400) its own body raised (FastAPI
HTTPException derives from Exception), re-runs the lookup, and wraps the
second 400 into a 500.  At 299 s the same code still verifies. -/
theorem C4_expiry_evaluation :
    (send_otp dbPlansOnly 0 "p" "123456").otps =
      [{ phone_number := "p", otp_code := "123456", created_at := 0, expires_at := 300 }] ∧
    verify_otp (send_otp dbPlansOnly 0 "p" "123456") 301 "p" "123456" upsOk =
      (send_otp dbPlansOnly 0 "p" "123456",
       .httpError 500 "Database error: 400: Invalid or expired OTP") ∧
    verify_otp (send_otp dbPlansOnly 0 "p" "123456") 300 "p" "123456" upsOk =
      (send_otp dbPlansOnly 0 "p" "123456",
       .httpError 500 "Database error: 400: Invalid or expired OTP") ∧
    (verify_otp (send_otp dbPlansOnly 0 "p" "123456") 299 "p" "123456" upsOk).2 =
      .ok "sk-new" := by
  exact ⟨rfl, rfl, rfl, rfl⟩

/-- C5 counterexample: the claim fails at concrete inputs in both
configurations.  With no billing credentials configured (STRIPE_SECRET_KEY
unset), main.py returns the mock checkout response (HTTP 200) for
plan_type=free instead of failing, because the mock branch runs before the
free-plan check; with credentials configured, both modules do reject free,
but the trailing except Exception catches the HTTPException(400) the body
raised and the client receives HTTP 500 "Error creating checkout: 400:
Cannot create checkout for free plan", not the claimed 400 InvalidPlanError. -/
theorem C5_counterexample :
    create_checkout_session none "https://aiconnex.space" dbPlansOnly 0 "p" .free
        ("cs_1", "url") =
      (dbPlansOnly,
       .mock "https://aiconnex.space/otp/mock-payment?session_id=cs_mock_123&phone=p&plan=free"
         "cs_mock_123") ∧
    CheckoutResult.mock
        "https://aiconnex.space/otp/mock-payment?session_id=cs_mock_123&phone=p&plan=free"
        "cs_mock_123" ≠ .err 400 "Cannot create checkout for free plan" ∧
    create_checkout_session (some "sk_live_1") "https://aiconnex.space" dbPlansOnly 0 "p"
        .free ("cs_1", "url") =
      (dbPlansOnly,
       .err 500 "Error creating checkout: 400: Cannot create checkout for free plan") ∧
    PaymentService.create_checkout_session dbPlansOnly 0 "p" .free ("cs_1", "url") =
      (dbPlansOnly,
       .err 500 "Error creating checkout: 400: Cannot create checkout for free plan") ∧
    CheckoutResult.err 500
        "Error creating checkout: 400: Cannot create checkout for free plan" ≠
      .err 400 "Cannot create checkout for free plan" := by
  exact ⟨rfl, by decide, rfl, rfl, by decide⟩

/-- C5 (amended): whenever billing credentials are configured, checkout
creation for plan_type=free always fails regardless of every other input —
the handler raises the 400 InvalidPlanError internally, but the trailing
except Exception wraps it and the client receives HTTP 500 "Error creating
checkout: 400: Cannot create checkout for free plan"; the payment_service.py
module behaves this way unconditionally (it has no mock branch).  When
credentials are absent, main.py instead returns the mock checkout URL (see
the counterexample). -/
theorem C5_free_checkout_amended (key backendOrigins : String) (db db₂ : DB)
    (now now₂ : Nat) (phone phone₂ : String) (ss ss₂ : String × String) :
    create_checkout_session_body (some key) backendOrigins db now phone .free ss =
      .exc 400 "Cannot create checkout for free plan" ∧
    create_checkout_session (some key) backendOrigins db now phone .free ss =
      (db, .err 500 "Error creating checkout: 400: Cannot create checkout for free plan") ∧
    PaymentService.create_checkout_session_body db₂ now₂ phone₂ .free ss₂ =
      .exc 400 "Cannot create checkout for free plan" ∧
    PaymentService.create_checkout_session db₂ now₂ phone₂ .free ss₂ =
      (db₂, .err 500 "Error creating checkout: 400: Cannot create checkout for free plan") := by
  exact ⟨rfl, rfl, rfl, rfl⟩

/-- C6: a webhook whose payload fails to parse, or whose signature does not
verify, is answered with HTTP 500 "Webhook processing failed", not the HTTP
400 InvalidPayload / InvalidSignature the claim states: the handler body does
raise HTTPException(400, "Invalid payload") / (400, "Invalid signature"), but
the surrounding except Exception block catches those very exceptions and
re-raises them as a 500 (identical in main.py and payment_service.py). -/
theorem C6_webhook_errors :
    stripe_webhook_body dbPlansOnly 0 .invalidPayload "c" 200 = .exc 400 "Invalid payload" ∧
    stripe_webhook_body dbPlansOnly 0 .invalidSignature "c" 200 = .exc 400 "Invalid signature" ∧
    stripe_webhook dbPlansOnly 0 .invalidPayload "c" 200 =
      (dbPlansOnly, .err 500 "Webhook processing failed") ∧
    stripe_webhook dbPlansOnly 0 .invalidSignature "c" 200 =
      (dbPlansOnly, .err 500 "Webhook processing failed") := by
  exact ⟨rfl, rfl, rfl, rfl⟩

/-- C7: on the first successful verification for a phone with no key and the
free plan seeded, if the upstream key-generate endpoint never answers 200 the
request aborts with a server error (HTTP 500) and the store is unchanged (no
key persisted); if the upstream answers 200 with key k, the key row is
persisted together with a newly created free subscription row for the phone. -/
theorem C7_provisioning (db : DB) (now : Nat) (phone code : String)
    (upstream : KeyGenPayload → Nat × String) (o : PhoneOTPRow)
    (fp : SubscriptionPlanRow)
    (hotp : db.otps.find? (otpMatch now phone code) = some o)
    (hkey : db.api_keys.find? (fun e => e.phone_number == phone) = none)
    (hfree : db.plans.find? (fun p => p.name == "free") = some fp) :
    ((∀ p, (upstream p).1 ≠ 200) →
      verify_otp db now phone code upstream =
        (db, .httpError 500 "Database error: 500: Failed to create LiteLLM key")) ∧
    (∀ k, upstream (first_verify_payload db phone) = (200, k) →
      verify_otp db now phone code upstream =
        ({ db with
            api_keys := db.api_keys ++
              [{ phone_number := phone, api_key := k, created_at := now }],
            subscriptions := db.subscriptions ++
              [{ id := db.next_id, phone_number := phone, plan_id := fp.id,
                 stripe_customer_id := none, stripe_subscription_id := none,
                 is_active := true, expires_at := none, created_at := now,
                 updated_at := now }],
            next_id := db.next_id + 1 }, .ok k)) := by
  constructor
  · intro hfail
    have h1 : (upstream (first_verify_payload db phone)).1 ≠ 200 := hfail _
    have h2 : (upstream (retry_verify_payload phone)).1 ≠ 200 := hfail _
    simp [verify_otp, verify_otp_attempt, verify_otp_retry, hotp, hkey, hfree,
      bne_iff_ne, h1, h2]
    rfl
  · intro k hk
    simp [verify_otp, verify_otp_attempt, freshFreeSub, hotp, hkey, hfree, hk]

/-- C7 witness: the theorem evaluated on the seeded catalog with a pending
challenge for phone "p" at time 10, once with an always-failing upstream and
once with an upstream returning key sk-new. -/
theorem C7_witness :
    dbOtp.otps.find? (otpMatch 10 "p" "123456") = some otpRowP ∧
    dbOtp.api_keys.find? (fun e => e.phone_number == "p") = none ∧
    dbOtp.plans.find? (fun p => p.name == "free") = some freePlanRow ∧
    verify_otp dbOtp 10 "p" "123456" upsFail =
      (dbOtp, .httpError 500 "Database error: 500: Failed to create LiteLLM key") ∧
    verify_otp dbOtp 10 "p" "123456" upsOk = (dbC7ok, .ok "sk-new") := by
  have hfailArm := (C7_provisioning dbOtp 10 "p" "123456" upsFail otpRowP freePlanRow
    rfl rfl rfl).1 (fun _ => (by decide : (500 : Nat) ≠ 200))
  have hokArm := (C7_provisioning dbOtp 10 "p" "123456" upsOk otpRowP freePlanRow
    rfl rfl rfl).2 "sk-new" rfl
  exact ⟨rfl, rfl, rfl, hfailArm, hokArm⟩

/-- C8: for every customer.subscription.deleted event matching an existing
UserSubscription, whatever its prior state, handle_subscription_canceled
commits that row with its plan set to the free plan and its expiry and Stripe
subscription id cleared to null, and invokes the proxy limit synchronizer with
the free-plan limits (rpm 2, tpm 1000, 1 parallel request, no max_budget
field): the recorded /key/update call carries those limits whenever a key row
exists for the phone. -/
theorem C8_cancellation (db : DB) (now : Nat) (sid : String) (st : Nat)
    (sub : UserSubscriptionRow) (fp : SubscriptionPlanRow)
    (hsub : db.subscriptions.find?
      (fun s => s.stripe_subscription_id == some sid) = some sub)
    (hfree : db.plans.find? (fun p => p.name == "free") = some fp) :
    (∃ i : Nat, db.subscriptions[i]? = some sub ∧
      (handle_subscription_canceled db now sid st).1.subscriptions[i]? =
        some (cancelUpdate fp.id now sub)) ∧
    (cancelUpdate fp.id now sub).plan_id = fp.id ∧
    (cancelUpdate fp.id now sub).expires_at = none ∧
    (cancelUpdate fp.id now sub).stripe_subscription_id = none ∧
    (∀ e, db.api_keys.find? (fun e => e.phone_number == sub.phone_number) = some e →
      (handle_subscription_canceled db now sid st).2.2 =
        some { key := e.api_key, budget_duration := "30d",
               max_parallel_requests := 1, tpm_limit := 1000, rpm_limit := 2,
               max_budget := none }) := by
  obtain ⟨i, h1, h2⟩ := updateFirst_getElem?
    (fun s => s.stripe_subscription_id == some sid)
    (cancelUpdate fp.id now) db.subscriptions sub hsub
  refine ⟨⟨i, h1, by simp [handle_subscription_canceled, hsub, hfree, h2]⟩,
    rfl, rfl, rfl, ?_⟩
  intro e he
  simp [handle_subscription_canceled, hsub, hfree, update_litellm_api_key, he,
    PLAN_CONFIGS]

/-- C8 witness: the theorem evaluated at the cancellation of sub_1 on the
full concrete store at time 70 with a failing (status 500) synchronizer call. -/
theorem C8_witness :
    dbFull.subscriptions.find?
      (fun s => s.stripe_subscription_id == some "sub_1") = some subRowP ∧
    dbFull.plans.find? (fun p => p.name == "free") = some freePlanRow ∧
    ((∃ i : Nat, dbFull.subscriptions[i]? = some subRowP ∧
      (handle_subscription_canceled dbFull 70 "sub_1" 500).1.subscriptions[i]? =
        some (cancelUpdate freePlanRow.id 70 subRowP)) ∧
    (cancelUpdate freePlanRow.id 70 subRowP).plan_id = freePlanRow.id ∧
    (cancelUpdate freePlanRow.id 70 subRowP).expires_at = none ∧
    (cancelUpdate freePlanRow.id 70 subRowP).stripe_subscription_id = none ∧
    (∀ e, dbFull.api_keys.find?
        (fun e => e.phone_number == subRowP.phone_number) = some e →
      (handle_subscription_canceled dbFull 70 "sub_1" 500).2.2 =
        some { key := e.api_key, budget_duration := "30d",
               max_parallel_requests := 1, tpm_limit := 1000, rpm_limit := 2,
               max_budget := none })) := by
  exact ⟨rfl, rfl, C8_cancellation dbFull 70 "sub_1" 500 subRowP freePlanRow rfl rfl⟩

/-- C9: getSubscription is idempotent.  For a phone with no subscription row
(and the free plan seeded), the first call creates exactly one free
subscription row — the store gains precisely that row and exactly one row for
the phone exists afterwards — and a second call at any later time returns the
same row and the same store. -/
theorem C9_get_subscription_idempotent (db : DB) (now now₂ : Nat) (phone : String)
    (fp : SubscriptionPlanRow)
    (hnone : db.subscriptions.find? (fun s => s.phone_number == phone) = none)
    (hfree : db.plans.find? (fun p => p.name == "free") = some fp) :
    get_user_subscription db now phone =
      some (withFreshFreeSub db phone fp now, freshFreeSub db phone fp now) ∧
    (withFreshFreeSub db phone fp now).subscriptions =
      db.subscriptions ++ [freshFreeSub db phone fp now] ∧
    (withFreshFreeSub db phone fp now).subscriptions.countP
      (fun s => s.phone_number == phone) = 1 ∧
    (freshFreeSub db phone fp now).phone_number = phone ∧
    (freshFreeSub db phone fp now).plan_id = fp.id ∧
    (freshFreeSub db phone fp now).is_active = true ∧
    (freshFreeSub db phone fp now).expires_at = none ∧
    get_user_subscription (withFreshFreeSub db phone fp now) now₂ phone =
      some (withFreshFreeSub db phone fp now, freshFreeSub db phone fp now) := by
  have hfind : (withFreshFreeSub db phone fp now).subscriptions.find?
      (fun s => s.phone_number == phone) = some (freshFreeSub db phone fp now) := by
    refine find?_append_singleton _ _ _ hnone ?_
    simp [freshFreeSub]
  refine ⟨?_, rfl, ?_, rfl, rfl, rfl, rfl, ?_⟩
  · simp [get_user_subscription, hnone, hfree]
  · have h0 := countP_eq_zero_of_find?_none
      (fun s : UserSubscriptionRow => s.phone_number == phone) db.subscriptions hnone
    simp [withFreshFreeSub, List.countP_append, h0, List.countP_cons, freshFreeSub]
  · simp [get_user_subscription, hfind]

/-- C9 witness: the theorem evaluated for phone "p" on the plans-only store,
first call at time 30, second at time 40. -/
theorem C9_witness :
    dbPlansOnly.subscriptions.find? (fun s => s.phone_number == "p") = none ∧
    dbPlansOnly.plans.find? (fun p => p.name == "free") = some freePlanRow ∧
    get_user_subscription dbPlansOnly 30 "p" =
      some (withFreshFreeSub dbPlansOnly "p" freePlanRow 30,
            freshFreeSub dbPlansOnly "p" freePlanRow 30) ∧
    (withFreshFreeSub dbPlansOnly "p" freePlanRow 30).subscriptions.countP
      (fun s => s.phone_number == "p") = 1 ∧
    get_user_subscription (withFreshFreeSub dbPlansOnly "p" freePlanRow 30) 40 "p" =
      some (withFreshFreeSub dbPlansOnly "p" freePlanRow 30,
            freshFreeSub dbPlansOnly "p" freePlanRow 30) := by
  have h := C9_get_subscription_idempotent dbPlansOnly 30 40 "p" freePlanRow rfl rfl
  exact ⟨rfl, rfl, h.1, h.2.2.1, h.2.2.2.2.2.2.2⟩

/-- C10: processing a customer.subscription.deleted event for a matching
subscription leaves that row active: both the main.py and the
payment_service.py cancellation handlers commit the matched row with
cancelUpdate, whose is_active field is True — cancellation downgrades the
plan to free but never deactivates the row. -/
theorem C10_cancel_keeps_active (db : DB) (now : Nat) (sid : String) (st : Nat)
    (sub : UserSubscriptionRow) (fp : SubscriptionPlanRow)
    (hsub : db.subscriptions.find?
      (fun s => s.stripe_subscription_id == some sid) = some sub)
    (hfree : db.plans.find? (fun p => p.name == "free") = some fp) :
    (∃ i : Nat, db.subscriptions[i]? = some sub ∧
      (handle_subscription_canceled db now sid st).1.subscriptions[i]? =
        some (cancelUpdate fp.id now sub)) ∧
    (∃ i : Nat, db.subscriptions[i]? = some sub ∧
      (PaymentService.handle_subscription_canceled db now sid st).1.subscriptions[i]? =
        some (cancelUpdate fp.id now sub)) ∧
    (cancelUpdate fp.id now sub).is_active = true := by
  obtain ⟨i, h1, h2⟩ := updateFirst_getElem?
    (fun s => s.stripe_subscription_id == some sid)
    (cancelUpdate fp.id now) db.subscriptions sub hsub
  exact ⟨⟨i, h1, by simp [handle_subscription_canceled, hsub, hfree, h2]⟩,
    ⟨i, h1, by simp [PaymentService.handle_subscription_canceled, hsub, hfree, h2]⟩,
    rfl⟩

/-- C10 witness: the theorem evaluated at the cancellation of sub_1 on the
full concrete store at time 80. -/
theorem C10_witness :
    dbFull.subscriptions.find?
      (fun s => s.stripe_subscription_id == some "sub_1") = some subRowP ∧
    dbFull.plans.find? (fun p => p.name == "free") = some freePlanRow ∧
    ((∃ i : Nat, dbFull.subscriptions[i]? = some subRowP ∧
      (handle_subscription_canceled dbFull 80 "sub_1" 200).1.subscriptions[i]? =
        some (cancelUpdate freePlanRow.id 80 subRowP)) ∧
    (∃ i : Nat, dbFull.subscriptions[i]? = some subRowP ∧
      (PaymentService.handle_subscription_canceled dbFull 80 "sub_1" 200).1.subscriptions[i]? =
        some (cancelUpdate freePlanRow.id 80 subRowP)) ∧
    (cancelUpdate freePlanRow.id 80 subRowP).is_active = true) := by
  exact ⟨rfl, rfl, C10_cancel_keeps_active dbFull 80 "sub_1" 200 subRowP freePlanRow rfl rfl⟩
